import Mathlib

/-!
A shallow embedding of the emoji-explainer web service (FastAPI + Prisma).

The data store (Prisma over a relational database) is modelled as an explicit
`DB` value; every service function takes the store and returns an
`Except Exc` result (Python exceptions become the `Exc` type), the resulting
store, and a trace of its effects (one entry per data-store operation or
outbound HTTP call).  External effects that the source obtains from libraries
are passed as parameters: the bcrypt hash function and its random salt
(`createUser`), the external interpretation HTTP response (`submitEmoji`)
and the current time (`getUser`, `systemHealthCheck`).
-/

/-- `prisma.enums.Role` (the intended two-member enum). -/
inductive Role where
  | ADMIN
  | USER
deriving DecidableEq, Repr

/-- A row of the `User` table: `id` (unique), `email` (unique), `password`, `role`. -/
structure User where
  id : Int
  email : String
  password : String
  role : Role
deriving DecidableEq, Repr

/-- A row of the `EmojiExplanation` table: `id` (unique), `emoji` (unique), `explanation`. -/
structure EmojiExplanation where
  id : Int
  emoji : String
  explanation : String
deriving DecidableEq, Repr

/-- A row of the `EmojiRequest` table. `createdAt` is a timestamp modelled as `Int`. -/
structure EmojiRequest where
  id : Int
  userId : Int
  emoji : String
  explanation : Option String
  status : String
  createdAt : Int
deriving DecidableEq, Repr

/-- The relational data store: the three tables plus autoincrement counters. -/
structure DB where
  users : List User
  emojiExplanations : List EmojiExplanation
  emojiRequests : List EmojiRequest
  nextUserId : Int
  nextExplanationId : Int
deriving DecidableEq, Repr

def emptyDB : DB := ⟨[], [], [], 1, 1⟩

/-- Python exceptions raised by the services:
`ValueError`, `fastapi.HTTPException`, `httpx.HTTPStatusError` (from
`raise_for_status`), Prisma's record-not-found error on `update`, pydantic's
`ValidationError`, and Prisma's unique-constraint violation on `create`. -/
inductive Exc where
  | valueError (msg : String)
  | httpException (statusCode : Nat) (detail : String)
  | httpStatusError (msg : String)
  | recordNotFound (msg : String)
  | validationError (msg : String)
  | uniqueViolation (msg : String)
  | attributeError (msg : String)
deriving DecidableEq, Repr

/-- One observable effect of a handler: a data-store operation (named after the
Prisma call) or an outbound HTTP call (to the given URL). -/
inductive Effect where
  | dbOp (name : String)
  | extCall (url : String)
deriving DecidableEq, Repr

instance {ε α : Type} [DecidableEq ε] [DecidableEq α] : DecidableEq (Except ε α) := fun x y =>
  match x, y with
  | .ok a, .ok b =>
    if h : a = b then isTrue (by rw [h]) else isFalse (fun hh => by cases hh; exact h rfl)
  | .ok _, .error _ => isFalse (fun hh => by cases hh)
  | .error _, .ok _ => isFalse (fun hh => by cases hh)
  | .error a, .error b =>
    if h : a = b then isTrue (by rw [h]) else isFalse (fun hh => by cases hh; exact h rfl)

/-- The value produced by one service invocation: the returned value or raised
exception, the data store afterwards, and the trace of effects in order. -/
structure SvcResult (R : Type) where
  ret : Except Exc R
  db : DB
  trace : List Effect
deriving DecidableEq, Repr

/-- Number of data-store operations in a trace. -/
def dbOps (t : List Effect) : Nat :=
  (t.filter fun e => match e with | .dbOp _ => true | .extCall _ => false).length

/-- Number of outbound HTTP calls in a trace. -/
def extCalls (t : List Effect) : Nat :=
  (t.filter fun e => match e with | .dbOp _ => false | .extCall _ => true).length

/-- Python `int(s)`: optional sign followed by at least one digit
(surrounding whitespace and underscore digit grouping are not modelled;
no claim exercises them). Returns `none` where Python raises `ValueError`. -/
def pythonInt (s : String) : Option Int :=
  let chars := s.toList
  let parseDigits : List Char → Option Nat := fun ds =>
    if ds = [] ∨ ¬ ds.all Char.isDigit then none
    else some (ds.foldl (fun acc c => 10 * acc + (c.toNat - 48)) 0)
  match chars with
  | '-' :: rest => (parseDigits rest).map (fun n => -(n : Int))
  | '+' :: rest => (parseDigits rest).map (fun n => (n : Int))
  | _ => (parseDigits chars).map (fun n => (n : Int))

/-- `prisma.models.User.prisma().find_unique(where={"id": id})`. -/
def findUserById (db : DB) (id : Int) : Option User :=
  db.users.find? (fun u => u.id = id)

/-- `prisma.models.User.prisma().find_unique(where={"email": email})`. -/
def findUserByEmail (db : DB) (email : String) : Option User :=
  db.users.find? (fun u => u.email = email)

/-- `prisma.models.EmojiExplanation.prisma().find_unique(where={"emoji": emoji})`. -/
def findExplanationByEmoji (db : DB) (emoji : String) : Option EmojiExplanation :=
  db.emojiExplanations.find? (fun r => r.emoji = emoji)

/-- `prisma.models.EmojiExplanation.prisma().find_unique(where={"id": id})`. -/
def findExplanationById (db : DB) (id : Int) : Option EmojiExplanation :=
  db.emojiExplanations.find? (fun r => r.id = id)

/-- `deleteUser_service.DeleteUserResponse`. -/
structure DeleteUserResponse where
  status : String
  message : String
deriving DecidableEq, Repr

/-- `deleteUser_service.deleteUser(userId, approverId)`. -/
def deleteUser (db : DB) (userId approverId : Int) : SvcResult DeleteUserResponse :=
  let approver := findUserById db approverId
  let t1 := [Effect.dbOp "User.find_unique"]
  if approver = none ∨ ¬ (approver.map User.role = some Role.ADMIN) then
    ⟨.ok ⟨"error", "Approver is not authorized or does not exist."⟩, db, t1⟩
  else
    let t2 := t1 ++ [Effect.dbOp "User.find_unique"]
    match findUserById db userId with
    | none => ⟨.ok ⟨"error", "User does not exist."⟩, db, t2⟩
    | some user =>
      if user.role = Role.ADMIN then
        ⟨.ok ⟨"error", "Cannot delete an admin user."⟩, db, t2⟩
      else
        let db1 : DB :=
          { db with emojiRequests := db.emojiRequests.filter (fun r => ¬ r.userId = userId) }
        let db2 : DB :=
          { db1 with users := db1.users.filter (fun u => ¬ u.id = userId) }
        ⟨.ok ⟨"success", "User successfully deleted."⟩, db2,
          t2 ++ [Effect.dbOp "EmojiRequest.delete_many", Effect.dbOp "User.delete"]⟩

/-- `authenticateUser_service.UserAuthenticationResponse`. -/
structure UserAuthenticationResponse where
  jwt : String
  error : Option String
deriving DecidableEq, Repr

/-- `authenticateUser_service.authenticateUser(username, password)`.
The stored `password` field is compared with the submitted password by plain
string equality. -/
def authenticateUser (db : DB) (username password : String) :
    SvcResult UserAuthenticationResponse :=
  let t := [Effect.dbOp "User.find_unique"]
  match findUserByEmail db username with
  | none => ⟨.ok ⟨"", some "Invalid username or password"⟩, db, t⟩
  | some user =>
    if ¬ user.password = password then
      ⟨.ok ⟨"", some "Invalid username or password"⟩, db, t⟩
    else
      ⟨.ok ⟨"example_token_for_" ++ toString user.id, none⟩, db, t⟩

/-- `createUser_service.CreateUserResponse`. -/
structure CreateUserResponse where
  id : Int
  username : String
  role : Role
deriving DecidableEq, Repr

/-- `createUser_service.createUser(username, password, role)`.
`hashpw` and `salt` stand for the external `bcrypt.hashpw` and
`bcrypt.gensalt()`; the stored `password` field is `hashpw password salt`.
Prisma's unique constraint on `email` makes `create` raise when the email is
already taken. -/
def createUser (db : DB) (username password : String) (role : Role)
    (hashpw : String → String → String) (salt : String) : SvcResult CreateUserResponse :=
  let hashed := hashpw password salt
  let t := [Effect.dbOp "User.create"]
  if (findUserByEmail db username).isSome then
    ⟨.error (.uniqueViolation "Unique constraint failed on the fields: (email)"), db, t⟩
  else
    let user : User := ⟨db.nextUserId, username, hashed, role⟩
    let db' : DB := { db with users := db.users ++ [user], nextUserId := db.nextUserId + 1 }
    ⟨.ok ⟨user.id, user.email, role⟩, db', t⟩

/-- `addUserRole_service.ManageUserRoleResponse`. -/
structure ManageUserRoleResponse where
  success : Bool
  message : String
deriving DecidableEq, Repr

/-- Apply `data={"role": role}` to the user row with the given id
(`prisma.models.User.prisma().update`); the caller has checked existence. -/
def updateUserRoleRow (db : DB) (user_id : Int) (role : Role) : DB :=
  { db with users := db.users.map (fun u => if u.id = user_id then { u with role := role } else u) }

/-- `addUserRole_service.addUserRole(user_id, new_role)`.  The `except` branch
around the `update` is unreachable here: the row was just found, and the model
has no other failure source for `update`. -/
def addUserRole (db : DB) (user_id : Int) (new_role : Role) : SvcResult ManageUserRoleResponse :=
  let t1 := [Effect.dbOp "User.find_unique"]
  match findUserById db user_id with
  | none => ⟨.ok ⟨false, s!"No user found with ID {user_id}."⟩, db, t1⟩
  | some _ =>
    ⟨.ok ⟨true, "User role updated successfully."⟩, updateUserRoleRow db user_id new_role,
      t1 ++ [Effect.dbOp "User.update"]⟩

/-- `deleteUserRole_service.RemoveUserRoleResponse`. -/
structure RemoveUserRoleResponse where
  success : Bool
  message : String
deriving DecidableEq, Repr

/-- `deleteUserRole_service.deleteUserRole(user_id)`: sets the role to `USER`
(it does not delete the row).  As in `addUserRole`, the `except` branch is
unreachable in the model. -/
def deleteUserRole (db : DB) (user_id : Int) : SvcResult RemoveUserRoleResponse :=
  let t1 := [Effect.dbOp "User.find_unique"]
  match findUserById db user_id with
  | none => ⟨.ok ⟨false, "User not found."⟩, db, t1⟩
  | some _ =>
    ⟨.ok ⟨true, "User role updated successfully."⟩, updateUserRoleRow db user_id Role.USER,
      t1 ++ [Effect.dbOp "User.update"]⟩

/-- `updateUser_service.User` (the pydantic response row). -/
structure UserOut where
  id : Int
  email : String
  role : Role
deriving DecidableEq, Repr

/-- `updateUser_service.UpdateUserDetailsResponse`. -/
structure UpdateUserDetailsResponse where
  message : String
  updated_user : UserOut
deriving DecidableEq, Repr

/-- `updateUser_service.updateUser(userId, email, role)`.  With a non-empty
`update_data`, Prisma's `update` raises its record-not-found error when no row
has the id; with an empty `update_data` and a missing row, constructing
`UpdateUserDetailsResponse(updated_user=None)` raises pydantic's
`ValidationError`.  Neither path returns an error payload. -/
def updateUser (db : DB) (userId : Int) (email : Option String) (role : Option Role) :
    SvcResult UpdateUserDetailsResponse :=
  if email.isSome ∨ role.isSome then
    match findUserById db userId with
    | none =>
      ⟨.error (.recordNotFound "Record to update not found."), db, [Effect.dbOp "User.update"]⟩
    | some u =>
      let u' : User := { u with email := email.getD u.email, role := role.getD u.role }
      let db' : DB :=
        { db with users := db.users.map (fun v => if v.id = userId then u' else v) }
      ⟨.ok ⟨"User details updated successfully.", ⟨u'.id, u'.email, u'.role⟩⟩, db',
        [Effect.dbOp "User.update"]⟩
  else
    match findUserById db userId with
    | none =>
      ⟨.error (.validationError "updated_user: none is not an allowed value"), db,
        [Effect.dbOp "User.find_unique"]⟩
    | some u =>
      ⟨.ok ⟨"No updates applied.", ⟨u.id, u.email, u.role⟩⟩, db,
        [Effect.dbOp "User.find_unique"]⟩

/-- `getUser_service.UserDetailResponse`. -/
structure UserDetailResponse where
  username : String
  roles : List String
  creationDate : Int
deriving DecidableEq, Repr

/-- `Role.name` as stored / rendered. -/
def roleName : Role → String
  | .ADMIN => "ADMIN"
  | .USER => "USER"

/-- `getUser_service.getUser(userId)`.  `now` stands for `datetime.now()`,
used when the user has no requests. -/
def getUser (db : DB) (now : Int) (userId : Int) : SvcResult UserDetailResponse :=
  let t := [Effect.dbOp "User.find_unique"]
  match findUserById db userId with
  | none => ⟨.error (.valueError "User not found."), db, t⟩
  | some user =>
    let requests := db.emojiRequests.filter (fun r => r.userId = userId)
    let creationDate :=
      match requests.map EmojiRequest.createdAt with
      | [] => now
      | c :: cs => cs.foldl min c
    ⟨.ok ⟨user.email, [roleName user.role], creationDate⟩, db, t⟩

/-- `getApiHealth_service.HealthCheckResponse`. -/
structure HealthCheckResponse where
  status : String
  message : String
deriving DecidableEq, Repr

/-- `getApiHealth_service.getApiHealth(request)`.  The count of a table is a
natural number, so the `UNKNOWN` branch and the `except` branch are dead. -/
def getApiHealth (db : DB) : SvcResult HealthCheckResponse :=
  let t := [Effect.dbOp "EmojiRequest.count"]
  let emoji_requests := db.emojiRequests.length
  if emoji_requests ≥ 0 then
    ⟨.ok ⟨"UP", "API Gateway is running and accepting requests."⟩, db, t⟩
  else
    ⟨.ok ⟨"UNKNOWN", "Unable to determine the status."⟩, db, t⟩

/-- `systemHealthCheck_service.ComponentStatus`. -/
structure ComponentStatus where
  component_name : String
  status : String
  last_checked : String
deriving DecidableEq, Repr

/-- `systemHealthCheck_service.SystemStatusResponse` (`health` models the dict). -/
structure SystemStatusResponse where
  uptime : String
  health : List (String × String)
  details : List ComponentStatus
deriving DecidableEq, Repr

/-- `systemHealthCheck_service.systemHealthCheck(request)`.  `now` stands for
`datetime.now().isoformat()`. -/
def systemHealthCheck (now : String) (db : DB) : SvcResult SystemStatusResponse :=
  let component_details : List ComponentStatus :=
    [⟨"Response Manager", "Operational", now⟩, ⟨"Emoji Interpreter", "Operational", now⟩]
  let health_summary := component_details.map (fun c => (c.component_name, c.status))
  ⟨.ok ⟨"72 hours", health_summary, component_details⟩, db, []⟩

/-- `fetchRecentEmojis_service.EmojiInfo`. -/
structure EmojiInfo where
  emoji : String
  explanation : Option String
deriving DecidableEq, Repr

/-- `fetchRecentEmojis_service.RecentEmojisResponse`. -/
structure RecentEmojisResponse where
  emojis : List EmojiInfo
deriving DecidableEq, Repr

/-- Stable insertion into a list kept in descending `createdAt` order
(models `order={"createdAt": "desc"}`). -/
def insertByCreatedAtDesc (x : EmojiRequest) : List EmojiRequest → List EmojiRequest
  | [] => [x]
  | y :: ys =>
    if x.createdAt ≥ y.createdAt then x :: y :: ys else y :: insertByCreatedAtDesc x ys

/-- Stable sort in descending `createdAt` order. -/
def sortByCreatedAtDesc : List EmojiRequest → List EmojiRequest
  | [] => []
  | x :: xs => insertByCreatedAtDesc x (sortByCreatedAtDesc xs)

/-- `prisma.models.EmojiRequest.prisma().find_many(where={"status": "EXPLAINED"},
order={"createdAt": "desc"}, take=10)`. -/
def findRecentExplained (db : DB) : List EmojiRequest :=
  (sortByCreatedAtDesc (db.emojiRequests.filter (fun r => r.status = "EXPLAINED"))).take 10

/-- `fetchRecentEmojis_service.fetchRecentEmojis(request)`. -/
def fetchRecentEmojis (db : DB) : SvcResult RecentEmojisResponse :=
  let t := [Effect.dbOp "EmojiRequest.find_many"]
  let recent_emojis := findRecentExplained db
  if recent_emojis = [] then
    ⟨.error (.httpException 404 "No recent emojis found."), db, t⟩
  else
    ⟨.ok ⟨recent_emojis.map (fun r => ⟨r.emoji, r.explanation⟩)⟩, db, t⟩

/-- `fetchEmojiExplanation_service.GetEmojiExplanationResponse`. -/
structure GetEmojiExplanationResponse where
  emoji : String
  explanation : Option String
deriving DecidableEq, Repr

/-- `fetchEmojiExplanation_service.fetchEmojiExplanation(emoji_id)`. -/
def fetchEmojiExplanation (db : DB) (emoji_id : String) :
    SvcResult GetEmojiExplanationResponse :=
  match pythonInt emoji_id with
  | none =>
    ⟨.error (.valueError s!"invalid literal for int() with base 10: {emoji_id}"), db, []⟩
  | some n =>
    let t := [Effect.dbOp "EmojiExplanation.find_unique"]
    match findExplanationById db n with
    | none =>
      ⟨.error (.valueError s!"No explanation found for emoji with id {emoji_id}"), db, t⟩
    | some emoji_record =>
      ⟨.ok ⟨emoji_record.emoji, some emoji_record.explanation⟩, db, t⟩

/-- `fetchExplanation_service.EmojiExplanationResponse`. -/
structure EmojiExplanationResponse where
  emoji : String
  explanation : String
deriving DecidableEq, Repr

/-- `fetchExplanation_service.fetchExplanation(id)`. -/
def fetchExplanation (db : DB) (id : String) : SvcResult EmojiExplanationResponse :=
  match pythonInt id with
  | none =>
    ⟨.error (.valueError s!"invalid literal for int() with base 10: {id}"), db, []⟩
  | some n =>
    let t := [Effect.dbOp "EmojiExplanation.find_unique"]
    match findExplanationById db n with
    | none =>
      ⟨.error (.valueError "No explanation found with the provided ID."), db, t⟩
    | some emoji_explanation =>
      ⟨.ok ⟨emoji_explanation.emoji, emoji_explanation.explanation⟩, db, t⟩

/-- `submitEmoji_service.EmojiInterpretResponse`. -/
structure EmojiInterpretResponse where
  emoji : String
  explanation : String
deriving DecidableEq, Repr

/-- The outcome of the outbound POST in `call_emoji_interpretation_service`:
the HTTP status code and `response.json().get("explanation", None)`. -/
structure ExtResponse where
  statusCode : Nat
  explanation : Option String
deriving DecidableEq, Repr

def interpretationUrl : String := "https://api.emojiinterpreter.example.com/interpret"

/-- `submitEmoji_service.call_emoji_interpretation_service(emoji)`, with the
external world's answer passed as `ext`.  `raise_for_status` raises
`HTTPStatusError` for every non-2xx status; `if interpreted_data:` treats both
a missing value and the empty string as falsy, producing a `ValueError`. -/
def call_emoji_interpretation_service (ext : ExtResponse) :
    Except Exc String × List Effect :=
  let t := [Effect.extCall interpretationUrl]
  if ¬ (200 ≤ ext.statusCode ∧ ext.statusCode < 300) then
    (.error (.httpStatusError s!"HTTP status error for url {interpretationUrl}"), t)
  else
    match ext.explanation with
    | some interpreted_data =>
      if ¬ interpreted_data = "" then (.ok interpreted_data, t)
      else (.error (.valueError "No interpretation was returned from the service."), t)
    | none => (.error (.valueError "No interpretation was returned from the service."), t)

/-- `submitEmoji_service.submitEmoji(emoji)`.  The external call happens first,
unconditionally; the store is consulted afterwards, and a row is created only
when none exists for the emoji.  (When the interpretation succeeds its result
is a string, so the `is not None` test is true whenever it is reached.) -/
def submitEmoji (db : DB) (emoji : String) (ext : ExtResponse) :
    SvcResult EmojiInterpretResponse :=
  match call_emoji_interpretation_service ext with
  | (.error e, t) => ⟨.error e, db, t⟩
  | (.ok interpretation_result, t) =>
    let t2 := t ++ [Effect.dbOp "EmojiExplanation.find_unique"]
    match findExplanationByEmoji db emoji with
    | none =>
      let row : EmojiExplanation := ⟨db.nextExplanationId, emoji, interpretation_result⟩
      let db' : DB :=
        { db with emojiExplanations := db.emojiExplanations ++ [row],
                  nextExplanationId := db.nextExplanationId + 1 }
      ⟨.ok ⟨emoji, interpretation_result⟩, db', t2 ++ [Effect.dbOp "EmojiExplanation.create"]⟩
    | some _ =>
      ⟨.ok ⟨emoji, interpretation_result⟩, db, t2⟩

/-- The body of an HTTP response: the handler's payload on success; the JSON
object `\x7b"error": msg\x7d` the `except` branch tries to build (never
actually delivered, see `renderDictContent`); or the plain-text body served
by Starlette's `ServerErrorMiddleware`. -/
inductive RouteBody (R : Type) where
  | payload (r : R)
  | errorBody (msg : String)
  | serverErrorText (msg : String)
deriving DecidableEq, Repr

/-- An HTTP response: status code and body (success responses are returned
with the framework's default 200). -/
structure RouteResult (R : Type) where
  statusCode : Nat
  body : RouteBody R
deriving DecidableEq, Repr

/-- Python `str(e)` for each modelled exception; for `fastapi.HTTPException`,
`str` renders `"{status_code}: {detail}"`. -/
def excMessage : Exc → String
  | .valueError m => m
  | .httpException code detail => s!"{code}: {detail}"
  | .httpStatusError m => m
  | .recordNotFound m => m
  | .validationError m => m
  | .uniqueViolation m => m
  | .attributeError m => m

/-- `starlette.responses.Response.render` applied to the `except` block's
content: `jsonable_encoder(res)` is still a dict, and for content that is not
`None`/`bytes` `render` runs `content.encode(self.charset)`; a dict has no
`.encode`, so constructing the `Response` raises `AttributeError`
unconditionally.  The intended body (the argument) is discarded. -/
def renderDictContent {R : Type} (_msg : String) : Except Exc (RouteBody R) :=
  .error (.attributeError "'dict' object has no attribute 'encode'")

/-- The `except Exception` block shared verbatim by all 13 route handlers in
`server.py`: it sets `res["error"] = str(e)` and tries to return
`Response(content=jsonable_encoder(res), status_code=500,
media_type="application/json")` — whose construction itself raises (see
`renderDictContent`). -/
def exceptBlock {R : Type} (e : Exc) : Except Exc (RouteResult R) :=
  match renderDictContent (R := R) (excMessage e) with
  | .error e2 => .error e2
  | .ok body => .ok ⟨500, body⟩

/-- Starlette's `ServerErrorMiddleware`: an exception escaping the endpoint is
answered with the framework's plain-text 500. -/
def serverErrorMiddleware {R : Type} (x : Except Exc (RouteResult R)) : RouteResult R :=
  match x with
  | .ok r => r
  | .error _ => ⟨500, .serverErrorText "Internal Server Error"⟩

/-- The full observable behaviour of one wrapped route handler: a successful
service result is returned as-is (200); on any service exception the
`except` block runs, itself crashes while building the JSON response, and the
middleware serves the plain-text 500. -/
def wrapHandler {R : Type} (x : Except Exc R) : RouteResult R :=
  serverErrorMiddleware
    (match x with
     | .ok r => .ok ⟨200, .payload r⟩
     | .error e => exceptBlock e)

/-- `GET /emojis/recent`. -/
def api_get_fetchRecentEmojis (db : DB) : RouteResult RecentEmojisResponse × DB :=
  let s := fetchRecentEmojis db
  (wrapHandler s.ret, s.db)

/-- `GET /emoji/explanation/\x7bemoji_id\x7d`. -/
def api_get_fetchEmojiExplanation (db : DB) (emoji_id : String) :
    RouteResult GetEmojiExplanationResponse × DB :=
  let s := fetchEmojiExplanation db emoji_id
  (wrapHandler s.ret, s.db)

/-- `GET /users/\x7buserId\x7d`. -/
def api_get_getUser (db : DB) (now : Int) (userId : Int) :
    RouteResult UserDetailResponse × DB :=
  let s := getUser db now userId
  (wrapHandler s.ret, s.db)

/-- `POST /emoji/interpret`. -/
def api_post_submitEmoji (db : DB) (emoji : String) (ext : ExtResponse) :
    RouteResult EmojiInterpretResponse × DB :=
  let s := submitEmoji db emoji ext
  (wrapHandler s.ret, s.db)

/-- `GET /system/status`. -/
def api_get_systemHealthCheck (now : String) (db : DB) :
    RouteResult SystemStatusResponse × DB :=
  let s := systemHealthCheck now db
  (wrapHandler s.ret, s.db)

/-- `DELETE /admin/user-role/\x7buser_id\x7d`. -/
def api_delete_deleteUserRole (db : DB) (user_id : Int) :
    RouteResult RemoveUserRoleResponse × DB :=
  let s := deleteUserRole db user_id
  (wrapHandler s.ret, s.db)

/-- `GET /emoji/explanation/\x7bid\x7d`. -/
def api_get_fetchExplanation (db : DB) (id : String) :
    RouteResult EmojiExplanationResponse × DB :=
  let s := fetchExplanation db id
  (wrapHandler s.ret, s.db)

/-- `POST /admin/user-role`. -/
def api_post_addUserRole (db : DB) (user_id : Int) (new_role : Role) :
    RouteResult ManageUserRoleResponse × DB :=
  let s := addUserRole db user_id new_role
  (wrapHandler s.ret, s.db)

/-- `DELETE /users/\x7buserId\x7d`. -/
def api_delete_deleteUser (db : DB) (userId approverId : Int) :
    RouteResult DeleteUserResponse × DB :=
  let s := deleteUser db userId approverId
  (wrapHandler s.ret, s.db)

/-- `PUT /users/\x7buserId\x7d`. -/
def api_put_updateUser (db : DB) (userId : Int) (email : Option String)
    (role : Option Role) : RouteResult UpdateUserDetailsResponse × DB :=
  let s := updateUser db userId email role
  (wrapHandler s.ret, s.db)

/-- `POST /users/authenticate`. -/
def api_post_authenticateUser (db : DB) (username password : String) :
    RouteResult UserAuthenticationResponse × DB :=
  let s := authenticateUser db username password
  (wrapHandler s.ret, s.db)

/-- `GET /health`. -/
def api_get_getApiHealth (db : DB) : RouteResult HealthCheckResponse × DB :=
  let s := getApiHealth db
  (wrapHandler s.ret, s.db)

/-- `POST /users`. -/
def api_post_createUser (db : DB) (username password : String) (role : Role)
    (hashpw : String → String → String) (salt : String) :
    RouteResult CreateUserResponse × DB :=
  let s := createUser db username password role hashpw salt
  (wrapHandler s.ret, s.db)

/-- The path pattern of `api_get_fetchEmojiExplanation` in `server.py`. -/
def fetchEmojiExplanationRoutePath : String := "/emoji/explanation/\x7bemoji_id\x7d"

/-- The path pattern of `api_get_fetchExplanation` in `server.py`. -/
def fetchExplanationRoutePath : String := "/emoji/explanation/\x7bid\x7d"

/-- The static part of a path pattern whose last segment is a single
`\x7bparam\x7d` placeholder. -/
def routeStaticPart (pat : String) : String :=
  String.mk (pat.toList.takeWhile (fun c => ¬ c = Char.ofNat 123))

/-- Starlette's matching for a pattern ending in one path parameter: the
placeholder matches one or more characters other than `/`. -/
def matchesRoute (pat url : String) : Bool :=
  let static := routeStaticPart pat
  static.isPrefixOf url ∧
    (let rest := (url.toList).drop static.length
     ¬ rest = [] ∧ rest.all (fun c => ¬ c = '/'))

/-- A sample admin row used in concrete instantiations. -/
def sampleAdmin : User := ⟨1, "admin@example.com", "hash1", Role.ADMIN⟩

/-- A sample non-admin row used in concrete instantiations. -/
def sampleUser : User := ⟨2, "user@example.com", "hash2", Role.USER⟩

/-- A sample populated store used in concrete instantiations. -/
def sampleDB : DB :=
  ⟨[sampleAdmin, sampleUser], [⟨1, "e1", "a smiley"⟩],
    [⟨1, 2, "e1", some "a smiley", "EXPLAINED", 5⟩], 3, 2⟩

/-- An external response that fails `raise_for_status`. -/
def extServerError : ExtResponse := ⟨500, none⟩

/-- A successful external response. -/
def extOk : ExtResponse := ⟨200, some "a flame"⟩

/-- C1 (code bug): the `except` block shared by all 13 handlers is intended
to answer any service exception with a 500 whose JSON body is
`\x7b"error": str(e)\x7d`, but its `Response(content=jsonable_encoder(res))`
raises `AttributeError` while rendering (a dict has no `.encode`), so the
client gets the framework's plain-text 500 and never the JSON error body.
The status code is 500 either way, including for `fetchRecentEmojis`'s 404
`HTTPException` on an empty result; the wrapping is uniform across all 13
handlers. -/
theorem uniform_error_translation :
    (∀ (R : Type) (e : Exc),
      exceptBlock (R := R) e
        = .error (.attributeError "'dict' object has no attribute 'encode'"))
  ∧ (∀ (R : Type) (e : Exc),
      @wrapHandler R (.error e) = ⟨500, RouteBody.serverErrorText "Internal Server Error"⟩)
  ∧ (∀ (R : Type) (e : Exc),
      ¬ @wrapHandler R (.error e) = ⟨500, RouteBody.errorBody (excMessage e)⟩)
  ∧ (∀ db, api_get_fetchRecentEmojis db
      = (wrapHandler (fetchRecentEmojis db).ret, (fetchRecentEmojis db).db))
  ∧ (∀ db s, api_get_fetchEmojiExplanation db s
      = (wrapHandler (fetchEmojiExplanation db s).ret, (fetchEmojiExplanation db s).db))
  ∧ (∀ db now u, api_get_getUser db now u
      = (wrapHandler (getUser db now u).ret, (getUser db now u).db))
  ∧ (∀ db s ext, api_post_submitEmoji db s ext
      = (wrapHandler (submitEmoji db s ext).ret, (submitEmoji db s ext).db))
  ∧ (∀ now db, api_get_systemHealthCheck now db
      = (wrapHandler (systemHealthCheck now db).ret, (systemHealthCheck now db).db))
  ∧ (∀ db u, api_delete_deleteUserRole db u
      = (wrapHandler (deleteUserRole db u).ret, (deleteUserRole db u).db))
  ∧ (∀ db s, api_get_fetchExplanation db s
      = (wrapHandler (fetchExplanation db s).ret, (fetchExplanation db s).db))
  ∧ (∀ db u r, api_post_addUserRole db u r
      = (wrapHandler (addUserRole db u r).ret, (addUserRole db u r).db))
  ∧ (∀ db u a, api_delete_deleteUser db u a
      = (wrapHandler (deleteUser db u a).ret, (deleteUser db u a).db))
  ∧ (∀ db u em r, api_put_updateUser db u em r
      = (wrapHandler (updateUser db u em r).ret, (updateUser db u em r).db))
  ∧ (∀ db s p, api_post_authenticateUser db s p
      = (wrapHandler (authenticateUser db s p).ret, (authenticateUser db s p).db))
  ∧ (∀ db, api_get_getApiHealth db
      = (wrapHandler (getApiHealth db).ret, (getApiHealth db).db))
  ∧ (∀ db s p r h sa, api_post_createUser db s p r h sa
      = (wrapHandler (createUser db s p r h sa).ret, (createUser db s p r h sa).db))
  ∧ (fetchRecentEmojis emptyDB).ret = .error (.httpException 404 "No recent emojis found.")
  ∧ api_get_fetchRecentEmojis emptyDB
      = (⟨500, .serverErrorText "Internal Server Error"⟩, emptyDB)
  ∧ ¬ (api_get_fetchRecentEmojis emptyDB).1
      = ⟨500, .errorBody "404: No recent emojis found."⟩
  ∧ api_get_fetchEmojiExplanation emptyDB "7"
      = (⟨500, .serverErrorText "Internal Server Error"⟩, emptyDB)
  ∧ api_get_getUser emptyDB 0 1
      = (⟨500, .serverErrorText "Internal Server Error"⟩, emptyDB)
  ∧ api_post_submitEmoji emptyDB "e1" extServerError
      = (⟨500, .serverErrorText "Internal Server Error"⟩, emptyDB)
  ∧ api_put_updateUser emptyDB 1 (some "new@example.com") none
      = (⟨500, .serverErrorText "Internal Server Error"⟩, emptyDB) := by
  refine ⟨fun _ _ => rfl, fun _ _ => rfl, ?_,
    fun _ => rfl, fun _ _ => rfl, fun _ _ _ => rfl, fun _ _ _ => rfl,
    fun _ _ => rfl, fun _ _ => rfl, fun _ _ => rfl, fun _ _ _ => rfl, fun _ _ _ => rfl,
    fun _ _ _ _ => rfl, fun _ _ _ => rfl, fun _ => rfl, fun _ _ _ _ _ _ => rfl,
    by decide, by decide, by decide, by decide, by decide, by decide, by decide⟩
  intro R e hh
  exact RouteBody.noConfusion (congrArg RouteResult.body hh)

/-- `deleteUser` either leaves the store unchanged, or (when an authorized
approver was found and the target exists with a non-admin role) removes
exactly the rows with the target's id. -/
theorem deleteUser_db_cases (db : DB) (userId approverId : Int) :
    (deleteUser db userId approverId).db = db
  ∨ ((deleteUser db userId approverId).db.users
        = db.users.filter (fun u => ¬ u.id = userId)
      ∧ ∃ user, findUserById db userId = some user ∧ ¬ user.role = Role.ADMIN) := by
  unfold deleteUser
  dsimp only
  split
  · exact Or.inl rfl
  · split
    · exact Or.inl rfl
    · rename_i user heq
      split
      · exact Or.inl rfl
      · rename_i hrole
        exact Or.inr ⟨rfl, user, heq, hrole⟩

/-- If two rows of a list with `Nodup` ids share an id, they are the same row. -/
theorem user_eq_of_id_eq {db : DB} (hids : (db.users.map User.id).Nodup)
    {u v : User} (hu : u ∈ db.users) (hv : v ∈ db.users) (h : u.id = v.id) : u = v :=
  List.inj_on_of_nodup_map hids hu hv h

/-- All branches of `submitEmoji` leave the `User` table unchanged. -/
theorem submitEmoji_users (db : DB) (emoji : String) (ext : ExtResponse) :
    (submitEmoji db emoji ext).db.users = db.users := by
  unfold submitEmoji
  split
  · rfl
  · dsimp only
    split <;> rfl

/-- `authenticateUser` never changes the store. -/
theorem authenticateUser_db (db : DB) (username password : String) :
    (authenticateUser db username password).db = db := by
  unfold authenticateUser
  dsimp only
  split
  · rfl
  · split <;> rfl

/-- `getUser` never changes the store. -/
theorem getUser_db (db : DB) (now userId : Int) : (getUser db now userId).db = db := by
  unfold getUser
  dsimp only
  split <;> rfl

/-- `fetchEmojiExplanation` never changes the store. -/
theorem fetchEmojiExplanation_db (db : DB) (s : String) :
    (fetchEmojiExplanation db s).db = db := by
  unfold fetchEmojiExplanation
  split
  · rfl
  · dsimp only
    split <;> rfl

/-- `fetchExplanation` never changes the store. -/
theorem fetchExplanation_db (db : DB) (s : String) : (fetchExplanation db s).db = db := by
  unfold fetchExplanation
  split
  · rfl
  · dsimp only
    split <;> rfl

/-- `fetchRecentEmojis` never changes the store. -/
theorem fetchRecentEmojis_db (db : DB) : (fetchRecentEmojis db).db = db := by
  unfold fetchRecentEmojis
  dsimp only
  split <;> rfl

/-- `getApiHealth` never changes the store. -/
theorem getApiHealth_db (db : DB) : (getApiHealth db).db = db := by
  unfold getApiHealth
  dsimp only
  split <;> rfl

/-- Mapping an id-preserving update over the `User` table keeps every row id. -/
theorem mem_map_id_preserved {l : List User} {f : User → User}
    (hf : ∀ v, (f v).id = v.id) : ∀ u ∈ l, ∃ v ∈ l.map f, v.id = u.id :=
  fun u hu => ⟨f u, List.mem_map_of_mem f hu, hf u⟩

/-- C2 counterexample: in `sampleDB` the target user 1 exists with role
`ADMIN`, yet `deleteUser 1 2` (approver 2 is not an admin) returns the
approver error message, not "Cannot delete an admin user." (the store is
still unchanged). -/
theorem deleteUser_admin_message_counterexample :
    findUserById sampleDB 1 = some sampleAdmin
  ∧ sampleAdmin.role = Role.ADMIN
  ∧ ¬ (deleteUser sampleDB 1 2).ret = .ok ⟨"error", "Cannot delete an admin user."⟩
  ∧ (deleteUser sampleDB 1 2).ret
      = .ok ⟨"error", "Approver is not authorized or does not exist."⟩
  ∧ (deleteUser sampleDB 1 2).db = sampleDB := by decide

/-- C2 (amended): a `User` row with role `ADMIN` is never removed by
`deleteUser` (whatever the approver is); when the approver check passes and
the target is an admin, the result is the "Cannot delete an admin user."
error with the store unchanged; and no other operation removes a `User` row
(mutating handlers keep every row id, `submitEmoji` leaves the table
untouched, the remaining handlers never change the store). -/
theorem admin_users_never_deleted (db : DB) (userId approverId : Int)
    (hids : (db.users.map User.id).Nodup) :
    (∀ u ∈ db.users, u.role = Role.ADMIN → u ∈ (deleteUser db userId approverId).db.users)
  ∧ ((findUserById db approverId).map User.role = some Role.ADMIN →
      ∀ u, findUserById db userId = some u → u.role = Role.ADMIN →
        (deleteUser db userId approverId).ret
            = .ok ⟨"error", "Cannot delete an admin user."⟩
          ∧ (deleteUser db userId approverId).db = db)
  ∧ (∀ username password role hashpw salt,
      ∀ u ∈ db.users, u ∈ (createUser db username password role hashpw salt).db.users)
  ∧ (∀ uid em ro, ∀ u ∈ db.users, ∃ v ∈ (updateUser db uid em ro).db.users, v.id = u.id)
  ∧ (∀ uid ro, ∀ u ∈ db.users, ∃ v ∈ (addUserRole db uid ro).db.users, v.id = u.id)
  ∧ (∀ uid, ∀ u ∈ db.users, ∃ v ∈ (deleteUserRole db uid).db.users, v.id = u.id)
  ∧ (∀ emoji ext, (submitEmoji db emoji ext).db.users = db.users)
  ∧ (∀ s p, (authenticateUser db s p).db = db)
  ∧ (∀ now u, (getUser db now u).db = db)
  ∧ (fetchRecentEmojis db).db = db
  ∧ (∀ s, (fetchEmojiExplanation db s).db = db)
  ∧ (∀ s, (fetchExplanation db s).db = db)
  ∧ (getApiHealth db).db = db
  ∧ (∀ now, (systemHealthCheck now db).db = db) := by
  refine ⟨?_, ?_, ?_, ?_, ?_, ?_, ?_, ?_, ?_, ?_, ?_, ?_, ?_, ?_⟩
  · intro u hu hrole
    rcases deleteUser_db_cases db userId approverId with h | ⟨husers, user, hfind, hradm⟩
    · rw [h]; exact hu
    · rw [husers]
      refine List.mem_filter.mpr ⟨hu, ?_⟩
      have huser_mem : user ∈ db.users := List.mem_of_find?_eq_some hfind
      have huser_id : user.id = userId := by
        have := List.find?_some hfind
        exact of_decide_eq_true this
      refine decide_eq_true ?_
      intro hueq
      exact hradm (by rw [← user_eq_of_id_eq hids hu huser_mem (hueq.trans huser_id.symm)]; exact hrole)
  · intro happ u hfind hadm
    have hcond : ¬ (findUserById db approverId = none
        ∨ ¬ (Option.map User.role (findUserById db approverId) = some Role.ADMIN)) := by
      intro hc
      rcases hc with hc | hc
      · rw [hc] at happ; exact Option.noConfusion happ
      · exact hc happ
    unfold deleteUser
    dsimp only
    rw [if_neg hcond, hfind]
    dsimp only
    rw [if_pos hadm]
    exact ⟨rfl, rfl⟩
  · intro username password role hashpw salt u hu
    unfold createUser
    dsimp only
    split
    · exact hu
    · exact List.mem_append_left _ hu
  · intro uid em ro u hu
    unfold updateUser
    dsimp only
    split
    · split
      · exact ⟨u, hu, rfl⟩
      · rename_i u0 hfind
        have hfind2 : db.users.find? (fun v => decide (v.id = uid)) = some u0 := hfind
        have hid : u0.id = uid := by
          have hp := List.find?_some hfind2
          simpa using hp
        refine mem_map_id_preserved ?_ u hu
        intro v
        dsimp only
        split
        · rename_i hv
          rw [hid, hv]
        · rfl
    · split
      · exact ⟨u, hu, rfl⟩
      · exact ⟨u, hu, rfl⟩
  · intro uid ro u hu
    unfold addUserRole
    dsimp only
    split
    · exact ⟨u, hu, rfl⟩
    · refine mem_map_id_preserved ?_ u hu
      intro v
      dsimp only [updateUserRoleRow]
      split <;> rfl
  · intro uid u hu
    unfold deleteUserRole
    dsimp only
    split
    · exact ⟨u, hu, rfl⟩
    · refine mem_map_id_preserved ?_ u hu
      intro v
      dsimp only [updateUserRoleRow]
      split <;> rfl
  · exact fun emoji ext => submitEmoji_users db emoji ext
  · exact fun s p => authenticateUser_db db s p
  · exact fun now u => getUser_db db now u
  · exact fetchRecentEmojis_db db
  · exact fun s => fetchEmojiExplanation_db db s
  · exact fun s => fetchExplanation_db db s
  · exact getApiHealth_db db
  · intro _; rfl

/-- C2 witness: `sampleDB` has `Nodup` user ids; deleting admin user 1 with
admin approver 1 yields the admin-protection error and leaves the store
unchanged. -/
theorem admin_users_never_deleted_witness :
    (sampleDB.users.map User.id).Nodup
  ∧ (deleteUser sampleDB 1 1).ret = .ok ⟨"error", "Cannot delete an admin user."⟩
  ∧ (deleteUser sampleDB 1 1).db = sampleDB := by
  have h := admin_users_never_deleted sampleDB 1 1 (by decide)
  have h2 := h.2.1 (by decide) sampleAdmin (by decide) (by decide)
  exact ⟨by decide, h2.1, h2.2⟩

/-- C3: whenever the approver does not exist or is not an admin, `deleteUser`
returns the "Approver is not authorized or does not exist." error and
performs no mutation (the store is returned unchanged after the single
lookup). -/
theorem deleteUser_unauthorized_approver (db : DB) (userId approverId : Int)
    (h : ¬ (findUserById db approverId).map User.role = some Role.ADMIN) :
    deleteUser db userId approverId
      = ⟨.ok ⟨"error", "Approver is not authorized or does not exist."⟩, db,
          [Effect.dbOp "User.find_unique"]⟩ := by
  unfold deleteUser
  dsimp only
  rw [if_pos (Or.inr h)]

/-- C3 witness: in `sampleDB`, approver 5 does not exist, and approver 2
exists without the `ADMIN` role; both attempts return the approver error and
leave the store unchanged. -/
theorem deleteUser_unauthorized_approver_witness :
    deleteUser sampleDB 1 5
      = ⟨.ok ⟨"error", "Approver is not authorized or does not exist."⟩, sampleDB,
          [Effect.dbOp "User.find_unique"]⟩
  ∧ deleteUser sampleDB 1 2
      = ⟨.ok ⟨"error", "Approver is not authorized or does not exist."⟩, sampleDB,
          [Effect.dbOp "User.find_unique"]⟩ :=
  ⟨deleteUser_unauthorized_approver sampleDB 1 5 (by decide),
    deleteUser_unauthorized_approver sampleDB 1 2 (by decide)⟩

/-- C5 counterexample: with an absent user id, `updateUser` raises (Prisma's
record-not-found error when a field is supplied, pydantic's validation error
when none is), instead of returning an error payload; the router then turns
the exception into a 500. -/
theorem updateUser_missing_user_raises_counterexample :
    (updateUser emptyDB 1 (some "new@example.com") none).ret
      = .error (.recordNotFound "Record to update not found.")
  ∧ (api_put_updateUser emptyDB 1 (some "new@example.com") none).1.statusCode = 500
  ∧ (updateUser emptyDB 1 none none).ret
      = .error (.validationError "updated_user: none is not an allowed value")
  ∧ ¬ ∃ payload, (updateUser emptyDB 1 (some "new@example.com") none).ret
      = .ok payload := by
  refine ⟨by decide, by decide, by decide, ?_⟩
  rintro ⟨payload, hp⟩
  rw [show (updateUser emptyDB 1 (some "new@example.com") none).ret
      = .error (.recordNotFound "Record to update not found.") from by decide] at hp
  exact Except.noConfusion hp

/-- C5 (amended): on an absent user id, `addUserRole` and `deleteUserRole`
look the user up first and return `success=False` payloads; `updateUser` does
not return a payload but raises (record-not-found when a field is supplied,
a response-validation error otherwise), which the router converts to 500. -/
theorem missing_user_error_payloads (db : DB) (uid : Int) (r : Role)
    (h : findUserById db uid = none) :
    addUserRole db uid r
      = ⟨.ok ⟨false, s!"No user found with ID {uid}."⟩, db, [Effect.dbOp "User.find_unique"]⟩
  ∧ deleteUserRole db uid
      = ⟨.ok ⟨false, "User not found."⟩, db, [Effect.dbOp "User.find_unique"]⟩
  ∧ (∀ (em : Option String) (ro : Option Role), em.isSome ∨ ro.isSome →
      updateUser db uid em ro
        = ⟨.error (.recordNotFound "Record to update not found."), db,
            [Effect.dbOp "User.update"]⟩)
  ∧ updateUser db uid none none
      = ⟨.error (.validationError "updated_user: none is not an allowed value"), db,
          [Effect.dbOp "User.find_unique"]⟩
  ∧ (∀ em ro, (api_put_updateUser db uid em ro).1.statusCode = 500) := by
  refine ⟨?_, ?_, ?_, ?_, ?_⟩
  · unfold addUserRole
    dsimp only
    rw [h]
  · unfold deleteUserRole
    dsimp only
    rw [h]
  · intro em ro hsome
    unfold updateUser
    rw [if_pos hsome, h]
  · unfold updateUser
    rw [if_neg (by rintro (hs | hs) <;> simp at hs), h]
  · intro em ro
    unfold api_put_updateUser
    dsimp only
    by_cases hsome : em.isSome ∨ ro.isSome
    · unfold updateUser
      rw [if_pos hsome, h]
      rfl
    · unfold updateUser
      rw [if_neg hsome, h]
      rfl

/-- C5 witness: concrete instantiation on the empty store at id 1. -/
theorem missing_user_error_payloads_witness :
    addUserRole emptyDB 1 Role.USER
      = ⟨.ok ⟨false, s!"No user found with ID {(1 : Int)}."⟩, emptyDB,
          [Effect.dbOp "User.find_unique"]⟩
  ∧ deleteUserRole emptyDB 1
      = ⟨.ok ⟨false, "User not found."⟩, emptyDB, [Effect.dbOp "User.find_unique"]⟩
  ∧ updateUser emptyDB 1 (some "new@example.com") none
      = ⟨.error (.recordNotFound "Record to update not found."), emptyDB,
          [Effect.dbOp "User.update"]⟩ := by
  have h := missing_user_error_payloads emptyDB 1 Role.USER (by decide)
  exact ⟨h.1, h.2.1, h.2.2.1 (some "new@example.com") none (Or.inl rfl)⟩

/-- C4: `createUser` stores the bcrypt hash of the password in the `password`
field; `authenticateUser` compares the stored field to the submitted password
by plain string equality; hence, whenever the hash differs from the plaintext
(bcrypt's `$2b$...` output format guarantees this for any password that is
not itself such a hash string), a freshly created user cannot authenticate
with the password used at creation. -/
theorem bcrypt_hash_breaks_authentication (db : DB) (username password : String)
    (role : Role) (hashpw : String → String → String) (salt : String)
    (hfresh : findUserByEmail db username = none)
    (hneq : ¬ hashpw password salt = password) :
    (createUser db username password role hashpw salt).db.users
      = db.users ++ [⟨db.nextUserId, username, hashpw password salt, role⟩]
  ∧ (authenticateUser (createUser db username password role hashpw salt).db
        username password).ret
      = .ok ⟨"", some "Invalid username or password"⟩ := by
  have hcreate : createUser db username password role hashpw salt
      = ⟨.ok ⟨db.nextUserId, username, role⟩,
          { db with
              users := db.users ++ [⟨db.nextUserId, username, hashpw password salt, role⟩],
              nextUserId := db.nextUserId + 1 },
          [Effect.dbOp "User.create"]⟩ := by
    unfold createUser
    dsimp only
    rw [hfresh]
    rfl
  refine ⟨by rw [hcreate], ?_⟩
  rw [hcreate]
  unfold authenticateUser findUserByEmail
  dsimp only
  have hfresh2 : db.users.find? (fun u => decide (u.email = username)) = none := hfresh
  rw [List.find?_append, hfresh2, Option.none_or,
    List.find?_cons_of_pos _ (by simp)]
  dsimp only
  rw [if_pos hneq]

/-- A stand-in for `bcrypt.hashpw` used in concrete instantiations, producing
a string in bcrypt's modular-crypt format. -/
def sampleHashpw : String → String → String :=
  fun _ salt => "$2b$12$" ++ salt ++ "abcdefghijklmnopqrstuvwxyz01234"

/-- C4 witness: a user created on the empty store with password "pw" cannot
authenticate with "pw" afterwards. -/
theorem bcrypt_hash_breaks_authentication_witness :
    findUserByEmail emptyDB "alice@example.com" = none
  ∧ ¬ sampleHashpw "pw" "S" = "pw"
  ∧ (authenticateUser
        (createUser emptyDB "alice@example.com" "pw" Role.USER sampleHashpw "S").db
        "alice@example.com" "pw").ret
      = .ok ⟨"", some "Invalid username or password"⟩ :=
  ⟨by decide, by decide,
    (bcrypt_hash_breaks_authentication emptyDB "alice@example.com" "pw" Role.USER
      sampleHashpw "S" (by decide) (by decide)).2⟩

/-- The outbound call produces exactly one `extCall` effect. -/
theorem call_interp_trace (ext : ExtResponse) :
    (call_emoji_interpretation_service ext).2 = [Effect.extCall interpretationUrl] := by
  unfold call_emoji_interpretation_service
  dsimp only
  split
  · rfl
  · split
    · split <;> rfl
    · rfl

/-- Branch characterization of `submitEmoji`: external call first, then the
lookup, then a create only when no row exists. -/
theorem submitEmoji_eq (db : DB) (emoji : String) (ext : ExtResponse) :
    submitEmoji db emoji ext
      = match (call_emoji_interpretation_service ext).1 with
        | .error e => ⟨.error e, db, [Effect.extCall interpretationUrl]⟩
        | .ok v =>
          match findExplanationByEmoji db emoji with
          | none =>
            ⟨.ok ⟨emoji, v⟩,
              { db with
                  emojiExplanations :=
                    db.emojiExplanations ++ [⟨db.nextExplanationId, emoji, v⟩],
                  nextExplanationId := db.nextExplanationId + 1 },
              [Effect.extCall interpretationUrl,
                Effect.dbOp "EmojiExplanation.find_unique",
                Effect.dbOp "EmojiExplanation.create"]⟩
          | some _ =>
            ⟨.ok ⟨emoji, v⟩, db,
              [Effect.extCall interpretationUrl,
                Effect.dbOp "EmojiExplanation.find_unique"]⟩ := by
  unfold submitEmoji
  have ht := call_interp_trace ext
  rcases hc : call_emoji_interpretation_service ext with ⟨r, t⟩
  rw [hc] at ht
  dsimp only at ht
  subst ht
  dsimp only
  cases r with
  | error e => rfl
  | ok v =>
    dsimp only
    split <;> rfl

/-- C6 counterexample: `deleteUser` performs four data-store operations on
its success path, and `submitEmoji` both makes the external call and performs
two data-store operations in the same request. -/
theorem handler_op_budget_counterexample :
    dbOps (deleteUser sampleDB 2 1).trace = 4
  ∧ extCalls (submitEmoji sampleDB "e2" extOk).trace = 1
  ∧ dbOps (submitEmoji sampleDB "e2" extOk).trace = 2 := by decide

/-- C6 (amended): every handler performs at most four data-store operations
(all except `deleteUser` at most two) and at most one outbound HTTP call;
`submitEmoji` is the only handler making an outbound call and it additionally
performs data-store operations (up to two) in the same request; `deleteUser`
is the only handler exceeding three data-store operations (four on its
success path). -/
theorem handler_op_budget_amended :
    (∀ db u a, dbOps (deleteUser db u a).trace ≤ 4
      ∧ extCalls (deleteUser db u a).trace = 0)
  ∧ (∀ db emoji ext, extCalls (submitEmoji db emoji ext).trace = 1
      ∧ dbOps (submitEmoji db emoji ext).trace ≤ 2)
  ∧ (∀ db, dbOps (fetchRecentEmojis db).trace ≤ 1
      ∧ extCalls (fetchRecentEmojis db).trace = 0)
  ∧ (∀ db s, dbOps (fetchEmojiExplanation db s).trace ≤ 1
      ∧ extCalls (fetchEmojiExplanation db s).trace = 0)
  ∧ (∀ db s, dbOps (fetchExplanation db s).trace ≤ 1
      ∧ extCalls (fetchExplanation db s).trace = 0)
  ∧ (∀ db now u, dbOps (getUser db now u).trace ≤ 1
      ∧ extCalls (getUser db now u).trace = 0)
  ∧ (∀ now db, dbOps (systemHealthCheck now db).trace = 0
      ∧ extCalls (systemHealthCheck now db).trace = 0)
  ∧ (∀ db u, dbOps (deleteUserRole db u).trace ≤ 2
      ∧ extCalls (deleteUserRole db u).trace = 0)
  ∧ (∀ db u r, dbOps (addUserRole db u r).trace ≤ 2
      ∧ extCalls (addUserRole db u r).trace = 0)
  ∧ (∀ db u em ro, dbOps (updateUser db u em ro).trace ≤ 1
      ∧ extCalls (updateUser db u em ro).trace = 0)
  ∧ (∀ db s p, dbOps (authenticateUser db s p).trace ≤ 1
      ∧ extCalls (authenticateUser db s p).trace = 0)
  ∧ (∀ db, dbOps (getApiHealth db).trace ≤ 1
      ∧ extCalls (getApiHealth db).trace = 0)
  ∧ (∀ db s p r h sa, dbOps (createUser db s p r h sa).trace ≤ 1
      ∧ extCalls (createUser db s p r h sa).trace = 0) := by
  refine ⟨?_, ?_, ?_, ?_, ?_, ?_, ?_, ?_, ?_, ?_, ?_, ?_, ?_⟩
  · intro db u a
    unfold deleteUser
    dsimp only
    repeat' split
    all_goals dsimp only
    all_goals decide
  · intro db emoji ext
    rw [submitEmoji_eq]
    repeat' split
    all_goals dsimp only
    all_goals decide
  · intro db
    unfold fetchRecentEmojis
    dsimp only
    repeat' split
    all_goals dsimp only
    all_goals decide
  · intro db s
    unfold fetchEmojiExplanation
    repeat' split
    all_goals dsimp only
    all_goals decide
  · intro db s
    unfold fetchExplanation
    repeat' split
    all_goals dsimp only
    all_goals decide
  · intro db now u
    unfold getUser
    dsimp only
    repeat' split
    all_goals dsimp only
    all_goals decide
  · intro now db
    exact ⟨rfl, rfl⟩
  · intro db u
    unfold deleteUserRole
    dsimp only
    repeat' split
    all_goals dsimp only
    all_goals decide
  · intro db u r
    unfold addUserRole
    dsimp only
    repeat' split
    all_goals dsimp only
    all_goals decide
  · intro db u em ro
    unfold updateUser
    repeat' split
    all_goals dsimp only
    all_goals decide
  · intro db s p
    unfold authenticateUser
    dsimp only
    repeat' split
    all_goals dsimp only
    all_goals decide
  · intro db
    unfold getApiHealth
    dsimp only
    repeat' split
    all_goals dsimp only
    all_goals decide
  · intro db s p r h sa
    unfold createUser
    dsimp only
    repeat' split
    all_goals dsimp only
    all_goals decide

/-- The outbound call fails exactly on a non-2xx status, a missing
`"explanation"` value, or an empty (falsy) one. -/
theorem call_interp_error_iff (ext : ExtResponse) :
    (∃ e, (call_emoji_interpretation_service ext).1 = .error e)
      ↔ (¬ (200 ≤ ext.statusCode ∧ ext.statusCode < 300)
          ∨ ext.explanation = none ∨ ext.explanation = some "") := by
  unfold call_emoji_interpretation_service
  dsimp only
  by_cases h1 : ¬ (200 ≤ ext.statusCode ∧ ext.statusCode < 300)
  · rw [if_pos h1]
    simp [h1]
  · rw [if_neg h1]
    cases hex : ext.explanation with
    | none => simp [h1, hex]
    | some d =>
      dsimp only
      by_cases hd : ¬ d = ""
      · rw [if_pos hd]
        simp [h1, hex, hd]
      · rw [if_neg hd]
        push_neg at hd
        simp [h1, hex, hd]

/-- C7: when the single outbound interpretation call fails (non-2xx status,
or no truthy "explanation" value), `submitEmoji` propagates the exception
after exactly that one call — no retry, no data-store operation, the store
unchanged — and the router answers with a 500 response (whose body is the
framework's plain-text one: the except block's own JSON response never
renders). -/
theorem submitEmoji_error_path (db : DB) (emoji : String) (ext : ExtResponse) (e : Exc)
    (h : (call_emoji_interpretation_service ext).1 = .error e) :
    submitEmoji db emoji ext = ⟨.error e, db, [Effect.extCall interpretationUrl]⟩
  ∧ (api_post_submitEmoji db emoji ext).1.statusCode = 500
  ∧ (api_post_submitEmoji db emoji ext).2 = db
  ∧ dbOps (submitEmoji db emoji ext).trace = 0
  ∧ extCalls (submitEmoji db emoji ext).trace = 1
  ∧ ((∃ e2, (call_emoji_interpretation_service ext).1 = .error e2)
      ↔ (¬ (200 ≤ ext.statusCode ∧ ext.statusCode < 300)
          ∨ ext.explanation = none ∨ ext.explanation = some "")) := by
  have hs : submitEmoji db emoji ext = ⟨.error e, db, [Effect.extCall interpretationUrl]⟩ := by
    rw [submitEmoji_eq, h]
  refine ⟨hs, ?_, ?_, ?_, ?_, call_interp_error_iff ext⟩
  · unfold api_post_submitEmoji
    rw [hs]
    rfl
  · unfold api_post_submitEmoji
    rw [hs]
  · rw [hs]
    rfl
  · rw [hs]
    rfl

/-- C7 witness: a 500 from the external service surfaces unchanged store and
a single external call. -/
theorem submitEmoji_error_path_witness :
    submitEmoji sampleDB "e1" extServerError
      = ⟨.error (.httpStatusError s!"HTTP status error for url {interpretationUrl}"),
          sampleDB, [Effect.extCall interpretationUrl]⟩
  ∧ (api_post_submitEmoji sampleDB "e1" extServerError).1.statusCode = 500
  ∧ (api_post_submitEmoji sampleDB "e1" extServerError).2 = sampleDB := by
  have h := submitEmoji_error_path sampleDB "e1" extServerError
    (.httpStatusError s!"HTTP status error for url {interpretationUrl}") (by decide)
  exact ⟨h.1, h.2.1, h.2.2.1⟩

/-- C8: the external interpretation service is called exactly once per
`submitEmoji` invocation, unconditionally, and before any data-store
operation (the call is the first effect and everything after it is a
data-store operation); a stored explanation does not prevent the call (the
store is merely left unchanged when a row already exists), and a row is
created only when none exists. -/
theorem submitEmoji_no_caching (db : DB) (emoji : String) (ext : ExtResponse) :
    extCalls (submitEmoji db emoji ext).trace = 1
  ∧ (submitEmoji db emoji ext).trace.head? = some (Effect.extCall interpretationUrl)
  ∧ (∀ ef ∈ (submitEmoji db emoji ext).trace.tail, ∃ n, ef = Effect.dbOp n)
  ∧ ((findExplanationByEmoji db emoji).isSome → (submitEmoji db emoji ext).db = db)
  ∧ (∀ v, (call_emoji_interpretation_service ext).1 = .ok v →
      findExplanationByEmoji db emoji = none →
      (submitEmoji db emoji ext).db
        = { db with
              emojiExplanations :=
                db.emojiExplanations ++ [⟨db.nextExplanationId, emoji, v⟩],
              nextExplanationId := db.nextExplanationId + 1 })
  ∧ ((submitEmoji db emoji ext).ret.isOk = false → (submitEmoji db emoji ext).db = db) := by
  rw [submitEmoji_eq]
  cases hc : (call_emoji_interpretation_service ext).1 with
  | error e =>
    dsimp only
    refine ⟨rfl, rfl, ?_, fun _ => rfl, ?_, fun _ => rfl⟩
    · intro ef hef
      exact absurd hef (List.not_mem_nil ef)
    · intro v hv
      exact absurd hv (fun hh => Except.noConfusion hh)
  | ok v =>
    dsimp only
    cases hf : findExplanationByEmoji db emoji with
    | none =>
      dsimp only
      refine ⟨rfl, rfl, ?_, ?_, ?_, ?_⟩
      · intro ef hef
        cases hef with
        | head => exact ⟨"EmojiExplanation.find_unique", rfl⟩
        | tail _ hef =>
          cases hef with
          | head => exact ⟨"EmojiExplanation.create", rfl⟩
          | tail _ hef => exact absurd hef (List.not_mem_nil ef)
      · intro hsome
        simp at hsome
      · intro v2 hv2 _
        cases hv2
        rfl
      · intro hok
        exact Bool.noConfusion hok
    | some r =>
      dsimp only
      refine ⟨rfl, rfl, ?_, fun _ => rfl, ?_, fun _ => rfl⟩
      · intro ef hef
        cases hef with
        | head => exact ⟨"EmojiExplanation.find_unique", rfl⟩
        | tail _ hef => exact absurd hef (List.not_mem_nil ef)
      · intro v2 hv2 hnone
        exact absurd hnone (fun hh => Option.noConfusion hh)

/-- C8 witness: with the explanation for "e1" already stored in `sampleDB`,
submitting "e1" again still makes the external call and leaves the store
unchanged; on the empty store the row is created. -/
theorem submitEmoji_no_caching_witness :
    extCalls (submitEmoji sampleDB "e1" extOk).trace = 1
  ∧ (submitEmoji sampleDB "e1" extOk).db = sampleDB
  ∧ (submitEmoji emptyDB "e1" extOk).db
      = { emptyDB with emojiExplanations := [⟨1, "e1", "a flame"⟩], nextExplanationId := 2 } := by
  have h1 := submitEmoji_no_caching sampleDB "e1" extOk
  have h2 := submitEmoji_no_caching emptyDB "e1" extOk
  refine ⟨h1.1, h1.2.2.2.1 (by decide), ?_⟩
  have h3 := h2.2.2.2.2.1 "a flame" (by decide) (by decide)
  exact h3

/-- The two fetch-by-id route patterns match exactly the same URLs: they share
the static prefix and each ends in one path parameter. -/
theorem fetch_route_patterns_agree (url : String) :
    matchesRoute fetchEmojiExplanationRoutePath url
      = matchesRoute fetchExplanationRoutePath url := by
  unfold matchesRoute
  rw [show routeStaticPart fetchEmojiExplanationRoutePath
      = routeStaticPart fetchExplanationRoutePath from by decide]

/-- C9: `fetchEmojiExplanation` and `fetchExplanation` are extensionally
equivalent readers: both leave the store unchanged, both parse the id with
the same `int()` conversion, both fail with a `ValueError` exactly when the
other does (no row with that id, or unparsable id), both return the same
`emoji`/`explanation` fields on success, and their route patterns
`/emoji/explanation/\x7b...\x7d` match exactly the same URLs. -/
theorem fetch_explanation_equivalence (db : DB) (id : String) :
    (fetchEmojiExplanation db id).db = db
  ∧ (fetchExplanation db id).db = db
  ∧ ((fetchEmojiExplanation db id).ret.isOk = (fetchExplanation db id).ret.isOk)
  ∧ (∀ e, (fetchEmojiExplanation db id).ret = .error e → ∃ m, e = .valueError m)
  ∧ (∀ e, (fetchExplanation db id).ret = .error e → ∃ m, e = .valueError m)
  ∧ (∀ a b, (fetchEmojiExplanation db id).ret = .ok a →
      (fetchExplanation db id).ret = .ok b →
      a.emoji = b.emoji ∧ a.explanation = some b.explanation)
  ∧ ((fetchEmojiExplanation db id).ret.isOk = true
      ↔ ∃ n, pythonInt id = some n ∧ (findExplanationById db n).isSome)
  ∧ (∀ url, matchesRoute fetchEmojiExplanationRoutePath url
      = matchesRoute fetchExplanationRoutePath url) := by
  cases hp : pythonInt id with
  | none =>
    have h1 : fetchEmojiExplanation db id
        = ⟨.error (.valueError s!"invalid literal for int() with base 10: {id}"), db, []⟩ := by
      unfold fetchEmojiExplanation
      rw [hp]
    have h2 : fetchExplanation db id
        = ⟨.error (.valueError s!"invalid literal for int() with base 10: {id}"), db, []⟩ := by
      unfold fetchExplanation
      rw [hp]
    rw [h1, h2]
    refine ⟨rfl, rfl, rfl, ?_, ?_, ?_, ?_, fetch_route_patterns_agree⟩
    · intro e he
      cases he
      exact ⟨_, rfl⟩
    · intro e he
      cases he
      exact ⟨_, rfl⟩
    · intro a b ha _
      exact absurd ha (fun hh => Except.noConfusion hh)
    · simp [Except.isOk, Except.toBool, hp]
  | some n =>
    cases hf : findExplanationById db n with
    | none =>
      have h1 : fetchEmojiExplanation db id
          = ⟨.error (.valueError s!"No explanation found for emoji with id {id}"), db,
              [Effect.dbOp "EmojiExplanation.find_unique"]⟩ := by
        unfold fetchEmojiExplanation
        rw [hp]
        dsimp only
        rw [hf]
      have h2 : fetchExplanation db id
          = ⟨.error (.valueError "No explanation found with the provided ID."), db,
              [Effect.dbOp "EmojiExplanation.find_unique"]⟩ := by
        unfold fetchExplanation
        rw [hp]
        dsimp only
        rw [hf]
      rw [h1, h2]
      refine ⟨rfl, rfl, rfl, ?_, ?_, ?_, ?_, fetch_route_patterns_agree⟩
      · intro e he
        cases he
        exact ⟨_, rfl⟩
      · intro e he
        cases he
        exact ⟨_, rfl⟩
      · intro a b ha _
        exact absurd ha (fun hh => Except.noConfusion hh)
      · simp [Except.isOk, Except.toBool, hp, hf]
    | some emoji_record =>
      have h1 : fetchEmojiExplanation db id
          = ⟨.ok ⟨emoji_record.emoji, some emoji_record.explanation⟩, db,
              [Effect.dbOp "EmojiExplanation.find_unique"]⟩ := by
        unfold fetchEmojiExplanation
        rw [hp]
        dsimp only
        rw [hf]
      have h2 : fetchExplanation db id
          = ⟨.ok ⟨emoji_record.emoji, emoji_record.explanation⟩, db,
              [Effect.dbOp "EmojiExplanation.find_unique"]⟩ := by
        unfold fetchExplanation
        rw [hp]
        dsimp only
        rw [hf]
      rw [h1, h2]
      refine ⟨rfl, rfl, rfl, ?_, ?_, ?_, ?_, fetch_route_patterns_agree⟩
      · intro e he
        exact absurd he (fun hh => Except.noConfusion hh)
      · intro e he
        exact absurd he (fun hh => Except.noConfusion hh)
      · intro a b ha hb
        cases ha
        cases hb
        exact ⟨rfl, rfl⟩
      · simp [Except.isOk, Except.toBool, hp, hf]

/-- C9 witness: on `sampleDB`, id "1" resolves in both readers to the same
emoji and explanation. -/
theorem fetch_explanation_equivalence_witness :
    (fetchEmojiExplanation sampleDB "1").ret = .ok ⟨"e1", some "a smiley"⟩
  ∧ (fetchExplanation sampleDB "1").ret = .ok ⟨"e1", "a smiley"⟩
  ∧ ("e1" = "e1" ∧ (some "a smiley" : Option String) = some "a smiley") :=
  ⟨by decide, by decide,
    (fetch_explanation_equivalence sampleDB "1").2.2.2.2.2.1
      ⟨"e1", some "a smiley"⟩ ⟨"e1", "a smiley"⟩ (by decide) (by decide)⟩

/-- "Ordered by `createdAt` descending": each element's `createdAt` is at
least the next one's. -/
def createdAtGE (a b : EmojiRequest) : Prop := b.createdAt ≤ a.createdAt

theorem mem_insertByCreatedAtDesc {x z : EmojiRequest} :
    ∀ {l : List EmojiRequest}, z ∈ insertByCreatedAtDesc x l ↔ z = x ∨ z ∈ l := by
  intro l
  induction l with
  | nil => simp [insertByCreatedAtDesc]
  | cons y ys ih =>
    rw [insertByCreatedAtDesc]
    by_cases hc : x.createdAt ≥ y.createdAt
    · rw [if_pos hc]
      simp [List.mem_cons]
    · rw [if_neg hc]
      simp [List.mem_cons, ih]
      tauto

theorem insertByCreatedAtDesc_pairwise {x : EmojiRequest} {l : List EmojiRequest}
    (h : l.Pairwise createdAtGE) : (insertByCreatedAtDesc x l).Pairwise createdAtGE := by
  induction l with
  | nil => simp [insertByCreatedAtDesc, List.pairwise_cons]
  | cons y ys ih =>
    rw [insertByCreatedAtDesc]
    rw [List.pairwise_cons] at h
    obtain ⟨hy, hys⟩ := h
    by_cases hc : x.createdAt ≥ y.createdAt
    · rw [if_pos hc, List.pairwise_cons]
      refine ⟨?_, List.pairwise_cons.mpr ⟨hy, hys⟩⟩
      intro z hz
      rcases List.mem_cons.mp hz with rfl | hz
      · exact hc
      · exact le_trans (hy z hz) hc
    · rw [if_neg hc, List.pairwise_cons]
      refine ⟨?_, ih hys⟩
      intro z hz
      rcases mem_insertByCreatedAtDesc.mp hz with rfl | hz
      · exact le_of_lt (lt_of_not_ge hc)
      · exact hy z hz

theorem sortByCreatedAtDesc_pairwise (l : List EmojiRequest) :
    (sortByCreatedAtDesc l).Pairwise createdAtGE := by
  induction l with
  | nil => simp [sortByCreatedAtDesc]
  | cons x xs ih =>
    rw [sortByCreatedAtDesc]
    exact insertByCreatedAtDesc_pairwise ih

theorem mem_sortByCreatedAtDesc {z : EmojiRequest} :
    ∀ {l : List EmojiRequest}, z ∈ sortByCreatedAtDesc l ↔ z ∈ l := by
  intro l
  induction l with
  | nil => simp [sortByCreatedAtDesc]
  | cons x xs ih =>
    rw [sortByCreatedAtDesc, mem_insertByCreatedAtDesc]
    simp [List.mem_cons, ih]

theorem length_insertByCreatedAtDesc (x : EmojiRequest) (l : List EmojiRequest) :
    (insertByCreatedAtDesc x l).length = l.length + 1 := by
  induction l with
  | nil => rfl
  | cons y ys ih =>
    rw [insertByCreatedAtDesc]
    by_cases hc : x.createdAt ≥ y.createdAt
    · rw [if_pos hc]
      rfl
    · rw [if_neg hc]
      simp [List.length_cons, ih]

theorem length_sortByCreatedAtDesc (l : List EmojiRequest) :
    (sortByCreatedAtDesc l).length = l.length := by
  induction l with
  | nil => rfl
  | cons x xs ih =>
    rw [sortByCreatedAtDesc, length_insertByCreatedAtDesc, ih]
    rfl

/-- The `find_many` result is empty exactly when no row has status
`"EXPLAINED"`. -/
theorem findRecentExplained_eq_nil_iff (db : DB) :
    findRecentExplained db = []
      ↔ db.emojiRequests.filter (fun r => r.status = "EXPLAINED") = [] := by
  unfold findRecentExplained
  constructor
  · intro h
    have hl := congrArg List.length h
    rw [List.length_take, length_sortByCreatedAtDesc] at hl
    simp only [List.length_nil, Nat.min_eq_zero_iff] at hl
    rcases hl with hl | hl
    · exact absurd hl (by decide)
    · exact List.eq_nil_of_length_eq_zero hl
  · intro h
    rw [h]
    rfl

/-- C10: `fetchRecentEmojis` never mutates the store; on success it returns
at most 10 entries, exactly the image of the `find_many` result (rows with
status "EXPLAINED", ordered by `createdAt` descending, first 10); every entry
comes from such a row; when no row qualifies it raises
`HTTPException(404, "No recent emojis found.")`, which the route wrapper
converts into a 500 response (status only: the except block's own JSON body
never renders). -/
theorem fetchRecentEmojis_spec (db : DB) :
    (fetchRecentEmojis db).db = db
  ∧ (∀ resp, (fetchRecentEmojis db).ret = .ok resp →
      resp.emojis.length ≤ 10
      ∧ resp.emojis = (findRecentExplained db).map (fun r => ⟨r.emoji, r.explanation⟩)
      ∧ ∀ e ∈ resp.emojis, ∃ r ∈ db.emojiRequests,
          r.status = "EXPLAINED" ∧ e.emoji = r.emoji ∧ e.explanation = r.explanation)
  ∧ (findRecentExplained db).Pairwise createdAtGE
  ∧ ((fetchRecentEmojis db).ret.isOk = false
      ↔ db.emojiRequests.filter (fun r => r.status = "EXPLAINED") = [])
  ∧ (db.emojiRequests.filter (fun r => r.status = "EXPLAINED") = [] →
      (fetchRecentEmojis db).ret = .error (.httpException 404 "No recent emojis found.")
      ∧ (api_get_fetchRecentEmojis db).1.statusCode = 500) := by
  have hsorted : (findRecentExplained db).Pairwise createdAtGE :=
    (sortByCreatedAtDesc_pairwise
      (db.emojiRequests.filter (fun r => r.status = "EXPLAINED"))).sublist
      (List.take_sublist 10 _)
  have hiff := findRecentExplained_eq_nil_iff db
  by_cases hempty : findRecentExplained db = []
  · have hfull : fetchRecentEmojis db
        = ⟨.error (.httpException 404 "No recent emojis found."), db,
            [Effect.dbOp "EmojiRequest.find_many"]⟩ := by
      unfold fetchRecentEmojis
      dsimp only
      rw [if_pos hempty]
    refine ⟨by rw [hfull], ?_, hsorted, ?_, ?_⟩
    · intro resp hresp
      rw [hfull] at hresp
      exact absurd hresp (fun hh => Except.noConfusion hh)
    · rw [hfull]
      simp [Except.isOk, Except.toBool, hiff.mp hempty]
    · intro _
      refine ⟨by rw [hfull], ?_⟩
      unfold api_get_fetchRecentEmojis
      rw [hfull]
      rfl
  · have hfull : fetchRecentEmojis db
        = ⟨.ok ⟨(findRecentExplained db).map (fun r => ⟨r.emoji, r.explanation⟩)⟩, db,
            [Effect.dbOp "EmojiRequest.find_many"]⟩ := by
      unfold fetchRecentEmojis
      dsimp only
      rw [if_neg hempty]
    have hnotfil : ¬ db.emojiRequests.filter (fun r => r.status = "EXPLAINED") = [] :=
      fun hf => hempty (hiff.mpr hf)
    refine ⟨by rw [hfull], ?_, hsorted, ?_, fun hf => absurd hf hnotfil⟩
    · intro resp hresp
      rw [hfull] at hresp
      cases hresp
      refine ⟨?_, rfl, ?_⟩
      · rw [List.length_map]
        unfold findRecentExplained
        rw [List.length_take]
        exact Nat.min_le_left 10 _
      · intro e he
        rcases List.mem_map.mp he with ⟨r, hr, hre⟩
        have hr2 : r ∈ db.emojiRequests.filter (fun q => q.status = "EXPLAINED") := by
          have := List.take_subset 10 _ hr
          exact mem_sortByCreatedAtDesc.mp this
      -- membership in the filter splits into membership and the status test
        rcases List.mem_filter.mp hr2 with ⟨hmem, hstat⟩
        refine ⟨r, hmem, of_decide_eq_true hstat, ?_, ?_⟩
        · rw [← hre]
        · rw [← hre]
    · rw [hfull]
      constructor
      · intro hok
        simp [Except.isOk, Except.toBool] at hok
      · intro hf
        exact absurd hf hnotfil

/-- C10 witness: `sampleDB` has one EXPLAINED request; the empty store gives
the 404 that the router converts to 500. -/
theorem fetchRecentEmojis_spec_witness :
    (fetchRecentEmojis sampleDB).ret = .ok ⟨[⟨"e1", some "a smiley"⟩]⟩
  ∧ ([(⟨"e1", some "a smiley"⟩ : EmojiInfo)]).length ≤ 10
  ∧ (fetchRecentEmojis emptyDB).ret = .error (.httpException 404 "No recent emojis found.")
  ∧ (api_get_fetchRecentEmojis emptyDB).1.statusCode = 500 := by
  have h1 := (fetchRecentEmojis_spec sampleDB).2.1 ⟨[⟨"e1", some "a smiley"⟩]⟩ (by decide)
  have h2 := (fetchRecentEmojis_spec emptyDB).2.2.2.2 (by decide)
  exact ⟨by decide, h1.1, h2.1, h2.2⟩
